import Mathlib

/-!
Verification development for the PDS-status repository (two Python modules:
`monitor_pds.py` and `analyze_results.py`).

The embedding below translates the probe-execution engine, the persisted
history (one JSON file per run, globbed and sorted on load) and the
aggregation functions into Lean definitions.  External effects are made
explicit:

* the HTTP transport is a function producing an `Outcome` per endpoint —
  either a response with a status code, an elapsed time, a decoded JSON body
  (or `none` when the body is undecodable) and the raw body text, or a raised
  `requests.RequestException` carrying its message (the only exception type
  the transport raises and the only one the code catches);
* wall-clock instants become explicit `String` timestamp parameters;
* JSON values are the inductive `Json`; a file on disk is a `FileContent`
  (a parsed JSON document, or text that fails to parse);
* floating point arithmetic is modelled by `ℚ`, with Python `round(x, k)`
  modelled by round-half-to-even at `k` decimal digits.
-/

/-- JSON values, as produced by `json.dump` / consumed by `json.load`. -/
inductive Json where
  | null
  | bool (b : Bool)
  | num (q : ℚ)
  | str (s : String)
  | arr (elems : List Json)
  | obj (fields : List (String × Json))

/-- `d.get(k, default)` on a JSON object given as its field list. -/
def jget (fields : List (String × Json)) (k : String) (default : Json) : Json :=
  (fields.lookup k).getD default

/-- Python `round` to the nearest integer: round half to even (banker-style
rounding), as used by `round(x, n)` on the magnitudes appearing here. -/
def pyRound (q : ℚ) : ℤ :=
  let f : ℤ := ⌊q⌋
  let frac : ℚ := q - f
  if frac < 1/2 then f
  else if 1/2 < frac then f + 1
  else if f % 2 = 0 then f else f + 1

/-- Python `round(q, k)`: round to `k` decimal digits. -/
def roundTo (k : ℕ) (q : ℚ) : ℚ := (pyRound (q * 10 ^ k) : ℚ) / 10 ^ k

/-- Outcome of one transport call (`self.session.get(...)`): either an HTTP
response (status code, elapsed seconds, the JSON value the body decodes to
— any JSON value, not necessarily an object — or `none` when `.json()`
raises `JSONDecodeError`, and the raw body text), or a raised
`requests.RequestException` with its message. -/
inductive Outcome where
  | response (code : ℕ) (elapsed : ℚ) (body : Option Json) (text : String)
  | raised (msg : String)

/-- One entry of the hard-coded endpoint catalog in
`PDSMonitor.perform_atproto_requests`. -/
structure Endpoint where
  name : String
  url : String
  params : List (String × Json)

/-- One per-probe result dict, as built inside
`PDSMonitor.perform_atproto_requests` (monitor_pds.py lines 189-221). -/
structure RequestResult where
  timestamp : String
  endpoint : String
  url : String
  status : String
  response_time : Option ℚ
  error : Option String
  response_code : Option ℕ

/-- The body of the per-endpoint loop of `perform_atproto_requests`
(monitor_pds.py lines 188-221): initialise the result dict, invoke the
transport, classify the outcome.  On a raised exception `response_time` and
`response_code` keep their initial `None`. -/
def probeOne (o : Outcome) (now : String) (ep : Endpoint) : RequestResult :=
  let base : RequestResult :=
    { timestamp := now, endpoint := ep.name, url := ep.url,
      status := "unknown", response_time := none, error := none,
      response_code := none }
  match o with
  | .response code elapsed _ _ =>
      let r := { base with response_time := some (roundTo 3 elapsed),
                           response_code := some code }
      if code = 200 then { r with status := "success" }
      else if code = 401 then { r with status := "unauthorized" }
      else if code = 404 then { r with status := "not_found" }
      else { r with status := "error", error := some ("HTTP " ++ toString code) }
  | .raised msg => { base with status := "failed", error := some msg }

/-- The `for endpoint in endpoints` loop of `perform_atproto_requests`:
run every probe of the catalog in order, appending each result. -/
def runProbes (transport : Endpoint → Outcome) (now : String)
    (eps : List Endpoint) : List RequestResult :=
  eps.map (fun ep => probeOne (transport ep) now ep)

/-- The hard-coded endpoint catalog of `perform_atproto_requests`
(monitor_pds.py lines 86-186). -/
def endpoints (pds_url user_handle : String) : List Endpoint :=
  [ { name := "get_profile", url := pds_url ++ "/xrpc/app.bsky.actor.getProfile",
      params := [("actor", .str user_handle)] },
    { name := "get_author_feed", url := pds_url ++ "/xrpc/app.bsky.feed.getAuthorFeed",
      params := [("actor", .str user_handle), ("limit", .num 5)] },
    { name := "get_timeline", url := pds_url ++ "/xrpc/app.bsky.feed.getTimeline",
      params := [("limit", .num 5)] },
    { name := "get_post_thread", url := pds_url ++ "/xrpc/app.bsky.feed.getPostThread",
      params := [("uri", .str "at://did:plc:example/app.bsky.feed.post/123")] },
    { name := "get_notifications", url := pds_url ++ "/xrpc/app.bsky.notification.listNotifications",
      params := [("limit", .num 5)] },
    { name := "get_suggestions", url := pds_url ++ "/xrpc/app.bsky.actor.getSuggestions",
      params := [("limit", .num 5)] },
    { name := "search_posts", url := pds_url ++ "/xrpc/app.bsky.feed.searchPosts",
      params := [("q", .str "test"), ("limit", .num 5)] },
    { name := "get_follows", url := pds_url ++ "/xrpc/app.bsky.graph.getFollows",
      params := [("actor", .str user_handle), ("limit", .num 5)] },
    { name := "get_followers", url := pds_url ++ "/xrpc/app.bsky.graph.getFollowers",
      params := [("actor", .str user_handle), ("limit", .num 5)] },
    { name := "get_likes", url := pds_url ++ "/xrpc/app.bsky.feed.getLikes",
      params := [("uri", .str "at://did:plc:example/app.bsky.feed.post/123"), ("limit", .num 5)] },
    { name := "get_reposts", url := pds_url ++ "/xrpc/app.bsky.feed.getRepostedBy",
      params := [("uri", .str "at://did:plc:example/app.bsky.feed.post/123"), ("limit", .num 5)] },
    { name := "get_blocks", url := pds_url ++ "/xrpc/app.bsky.graph.getBlocks",
      params := [("limit", .num 5)] },
    { name := "get_mutes", url := pds_url ++ "/xrpc/app.bsky.graph.getMutes",
      params := [("limit", .num 5)] },
    { name := "get_list", url := pds_url ++ "/xrpc/app.bsky.graph.getList",
      params := [("list", .str "at://did:plc:example/app.bsky.graph.list/123")] },
    { name := "get_lists", url := pds_url ++ "/xrpc/app.bsky.graph.getLists",
      params := [("actor", .str user_handle), ("limit", .num 5)] },
    { name := "get_bookmarks", url := pds_url ++ "/xrpc/app.bsky.feed.getBookmarks",
      params := [("limit", .num 5)] },
    { name := "get_preferences", url := pds_url ++ "/xrpc/app.bsky.actor.getPreferences",
      params := [] },
    { name := "get_suggested_follows", url := pds_url ++ "/xrpc/app.bsky.actor.getSuggestions",
      params := [("limit", .num 5)] },
    { name := "get_popular", url := pds_url ++ "/xrpc/app.bsky.feed.getPopular",
      params := [("limit", .num 5)] },
    { name := "get_trending", url := pds_url ++ "/xrpc/app.bsky.feed.getTrending",
      params := [("limit", .num 5)] } ]

/-- `PDSMonitor.perform_atproto_requests` (monitor_pds.py lines 81-223). -/
def perform_atproto_requests (transport : Endpoint → Outcome) (now : String)
    (pds_url user_handle : String) : List RequestResult :=
  runProbes transport now (endpoints pds_url user_handle)

/-- The result dict of `PDSMonitor.check_pds_status`
(monitor_pds.py lines 44-51). -/
structure StatusResult where
  timestamp : String
  pds_url : String
  status : String
  response_time : Option ℚ
  error : Option String
  details : Json

/-- Is this JSON value an object (a Python dict after `json.load`)? -/
def Json.isObj : Json → Bool
  | .obj _ => true
  | _ => false

/-- The text of the uncaught `AttributeError` raised when
`server_info.get` is called on a decoded body that is not a dict.  The
exact interpreter wording (which names the offending Python type) is
abstracted into one fixed message, since the code never inspects it. -/
def attributeErrorMsg : String :=
  "AttributeError: the decoded body has no attribute get"

/-- `PDSMonitor.check_pds_status` (monitor_pds.py lines 42-79): status 200
yields `online` (with server details extracted from the body via `.get`
when it decodes to an object, or the truncated raw text when `.json()`
raises `JSONDecodeError`); any other code yields `error` with message
`HTTP <code>`; a raised transport exception yields `offline` with the
exception text, `response_time` keeping its initial `None`.  One path
raises: on a 200 response whose body decodes to a JSON value that is not
an object, `server_info.get` raises an `AttributeError` that neither
`except json.JSONDecodeError` nor `except requests.exceptions.RequestException`
catches, so the function returns no record (`Except.error`). -/
def check_pds_status (o : Outcome) (now pds_url : String) :
    Except String StatusResult :=
  let base : StatusResult :=
    { timestamp := now, pds_url := pds_url, status := "unknown",
      response_time := none, error := none, details := .obj [] }
  match o with
  | .response code elapsed body text =>
      let r := { base with response_time := some (roundTo 3 elapsed) }
      if code = 200 then
        match body with
        | some (.obj server_info) =>
            .ok { r with
                  status := "online"
                  details :=
                    .obj [ ("available_user_domains",
                              jget server_info "availableUserDomains" (.arr [])),
                           ("invite_code_required",
                              jget server_info "inviteCodeRequired" (.bool false)),
                           ("links", jget server_info "links" (.obj [])) ] }
        | some _ => .error attributeErrorMsg
        | none =>
            .ok { r with
                  status := "online"
                  details := .obj [("raw_response", .str (text.take 500))] }
      else
        .ok { r with status := "error", error := some ("HTTP " ++ toString code) }
  | .raised msg => .ok { base with status := "offline", error := some msg }

/-- The `summary` dict of a monitoring run (monitor_pds.py lines 245-250). -/
structure Summary where
  total_requests : ℕ
  successful_requests : ℕ
  success_rate : ℚ
  pds_online : Bool

/-- The complete result dict of one monitoring run — one RunRecord
(monitor_pds.py lines 239-251). -/
structure MonitoringResult where
  timestamp : String
  pds_url : String
  user_handle : String
  pds_status : StatusResult
  atproto_requests : List RequestResult
  summary : Summary

/-- `PDSMonitor.run_monitoring` (monitor_pds.py lines 225-253): run the
health check and the probe batch, then compile the result with its derived
summary.  The health outcome, the per-endpoint transport outcomes and the
timestamp are the external inputs of the run.  `run_monitoring` has no
exception handler of its own, so when `check_pds_status` raises the raise
propagates and no RunRecord is produced. -/
def run_monitoring (healthOutcome : Outcome) (transport : Endpoint → Outcome)
    (now pds_url user_handle : String) : Except String MonitoringResult :=
  match check_pds_status healthOutcome now pds_url with
  | .error e => .error e
  | .ok status_result =>
      let requests_results := perform_atproto_requests transport now pds_url user_handle
      let successful_requests :=
        (requests_results.filter (fun r => r.status == "success")).length
      .ok { timestamp := now, pds_url := pds_url, user_handle := user_handle,
            pds_status := status_result,
            atproto_requests := requests_results,
            summary :=
              { total_requests := requests_results.length,
                successful_requests := successful_requests,
                success_rate :=
                  if requests_results.isEmpty then 0
                  else roundTo 2 ((successful_requests : ℚ) / (requests_results.length : ℚ) * 100),
                pds_online := status_result.status == "online" } }

/-!
## The history store

`save_results` (monitor_pds.py lines 255-266) writes one JSON file
`results/pds_monitor_<timestamp>.json` per run; `load_results`
(analyze_results.py lines 23-39) globs `results/pds_monitor_*.json`, sorts
the paths, and parses each file, printing an error line and skipping the
file when parsing fails.  The store is modelled as the list of files
matching that glob pattern (files not matching it are invisible to both
functions and therefore omitted), each file being its path paired with its
content; opening an existing path in write mode replaces the content under an existing
path.  Parsing a file either yields its JSON document or fails
(`FileContent.corrupt` models present-but-unparsable content); the physical
byte encoding is out of scope per the load/append contract.
-/

/-- Content of one file in the results directory: a JSON document, or
unparsable text. -/
inductive FileContent where
  | json (j : Json)
  | corrupt (raw : String)

/-- Is this file content unparsable? -/
def FileContent.isCorrupt : FileContent → Bool
  | .json _ => false
  | .corrupt _ => true

/-- `json.load` on one file: the document, or `none` when parsing raises. -/
def parseFile : FileContent → Option Json
  | .json j => some j
  | .corrupt _ => none

/-- The results directory: file paths with their contents. -/
abbrev FileStore := List (String × FileContent)

/-- The file path built by `save_results` from the formatted timestamp. -/
def resultsFilename (ts : String) : String :=
  "results/pds_monitor_" ++ ts ++ ".json"

/-- `open(filename, "w")` + write: replace the content under an existing
path, otherwise add a new file. -/
def writeFile (store : FileStore) (name : String) (content : FileContent) :
    FileStore :=
  if store.any (fun e => e.1 == name) then
    store.map (fun e => if e.1 == name then (name, content) else e)
  else
    store ++ [(name, content)]

/-- Insertion step of sorting the globbed paths (`sorted(files)`). -/
def insertByName (e : String × FileContent) :
    List (String × FileContent) → List (String × FileContent)
  | [] => [e]
  | f :: fs => if e.1 < f.1 then e :: f :: fs else f :: insertByName e fs

/-- `sorted(files)`: sort the store entries by path (lexicographic). -/
def sortByName : List (String × FileContent) → List (String × FileContent)
  | [] => []
  | e :: es => insertByName e (sortByName es)

/-- `load_results` (analyze_results.py lines 23-39): glob, sort by path,
parse each file.  First component: the loaded JSON documents in path order;
second component: the error lines printed for files whose parse raised
(the raised exception is caught per file — nothing propagates to the
caller). -/
def load_results (store : FileStore) : List Json × List String :=
  let sorted := sortByName store
  ( sorted.filterMap (fun e => parseFile e.2),
    sorted.filterMap (fun e =>
      match parseFile e.2 with
      | none => some ("Error loading " ++ e.1)
      | some _ => none) )

/-!
## JSON serialization of a RunRecord

`save_results` persists the `run_monitoring` dict with `json.dump`; the
encoders below build the corresponding `Json` document.  The decoders are
the specification-side witnesses that the encoding is lossless
("field-for-field equal"): `decodeMonitoring (encodeMonitoring r) = some r`.
-/

/-- Encode an optional number (`None` becomes JSON null). -/
def encOptNum : Option ℚ → Json
  | none => .null
  | some q => .num q

/-- Decode an optional number. -/
def decOptNum : Json → Option (Option ℚ)
  | .null => some none
  | .num q => some (some q)
  | _ => none

/-- Encode an optional integer (HTTP status code). -/
def encOptNat : Option ℕ → Json
  | none => .null
  | some n => .num n

/-- Decode an optional integer. -/
def decOptNat : Json → Option (Option ℕ)
  | .null => some none
  | .num q => if q.den = 1 ∧ 0 ≤ q.num then some (some q.num.toNat) else none
  | _ => none

/-- Encode an optional string. -/
def encOptStr : Option String → Json
  | none => .null
  | some s => .str s

/-- Decode an optional string. -/
def decOptStr : Json → Option (Option String)
  | .null => some none
  | .str s => some (some s)
  | _ => none

/-- Encode the `pds_status` dict. -/
def encStatusResult (s : StatusResult) : Json :=
  .obj [ ("timestamp", .str s.timestamp), ("pds_url", .str s.pds_url),
         ("status", .str s.status),
         ("response_time", encOptNum s.response_time),
         ("error", encOptStr s.error), ("details", s.details) ]

/-- Decode the `pds_status` dict. -/
def decStatusResult : Json → Option StatusResult
  | .obj [ ("timestamp", .str ts), ("pds_url", .str pu), ("status", .str st),
           ("response_time", rt), ("error", er), ("details", d) ] => do
      let rt ← decOptNum rt
      let er ← decOptStr er
      some { timestamp := ts, pds_url := pu, status := st,
             response_time := rt, error := er, details := d }
  | _ => none

/-- Encode one per-probe result dict. -/
def encRequestResult (r : RequestResult) : Json :=
  .obj [ ("timestamp", .str r.timestamp), ("endpoint", .str r.endpoint),
         ("url", .str r.url), ("status", .str r.status),
         ("response_time", encOptNum r.response_time),
         ("error", encOptStr r.error),
         ("response_code", encOptNat r.response_code) ]

/-- Decode one per-probe result dict. -/
def decRequestResult : Json → Option RequestResult
  | .obj [ ("timestamp", .str ts), ("endpoint", .str en), ("url", .str u),
           ("status", .str st), ("response_time", rt), ("error", er),
           ("response_code", rc) ] => do
      let rt ← decOptNum rt
      let er ← decOptStr er
      let rc ← decOptNat rc
      some { timestamp := ts, endpoint := en, url := u, status := st,
             response_time := rt, error := er, response_code := rc }
  | _ => none

/-- Encode the `summary` dict. -/
def encSummary (s : Summary) : Json :=
  .obj [ ("total_requests", .num s.total_requests),
         ("successful_requests", .num s.successful_requests),
         ("success_rate", .num s.success_rate),
         ("pds_online", .bool s.pds_online) ]

/-- Decode a natural number. -/
def decNat : Json → Option ℕ
  | .num q => if q.den = 1 ∧ 0 ≤ q.num then some q.num.toNat else none
  | _ => none

/-- Decode the `summary` dict. -/
def decSummary : Json → Option Summary
  | .obj [ ("total_requests", tr), ("successful_requests", sr),
           ("success_rate", .num rate), ("pds_online", .bool b) ] => do
      let tr ← decNat tr
      let sr ← decNat sr
      some { total_requests := tr, successful_requests := sr,
             success_rate := rate, pds_online := b }
  | _ => none

/-- Decode every element of a JSON list. -/
def decodeList (f : Json → Option α) : List Json → Option (List α)
  | [] => some []
  | x :: xs =>
      match f x, decodeList f xs with
      | some a, some as => some (a :: as)
      | _, _ => none

/-- `json.dump` of a complete monitoring result. -/
def encodeMonitoring (m : MonitoringResult) : Json :=
  .obj [ ("timestamp", .str m.timestamp), ("pds_url", .str m.pds_url),
         ("user_handle", .str m.user_handle),
         ("pds_status", encStatusResult m.pds_status),
         ("atproto_requests", .arr (m.atproto_requests.map encRequestResult)),
         ("summary", encSummary m.summary) ]

/-- Read a monitoring result back from its JSON document. -/
def decodeMonitoring : Json → Option MonitoringResult
  | .obj [ ("timestamp", .str ts), ("pds_url", .str pu),
           ("user_handle", .str uh), ("pds_status", ps),
           ("atproto_requests", .arr reqs), ("summary", sm) ] => do
      let ps ← decStatusResult ps
      let reqs ← decodeList decRequestResult reqs
      let sm ← decSummary sm
      some { timestamp := ts, pds_url := pu, user_handle := uh,
             pds_status := ps, atproto_requests := reqs, summary := sm }
  | _ => none

/-- `save_results` (monitor_pds.py lines 255-266): serialize the run and
write it to `results/pds_monitor_<timestamp>.json`. -/
def save_results (store : FileStore) (ts : String) (results : MonitoringResult) :
    FileStore :=
  writeFile store (resultsFilename ts) (.json (encodeMonitoring results))

/-!
## The aggregation layer (analyze_results.py)

The analysis functions consume the loaded RunRecords.  `load_results`
returns raw JSON dicts in Python; here the analysis functions are stated
over `MonitoringResult` values, the lossless decoding of those dicts
(`decodeMonitoring_encodeMonitoring` below).  Calendar dates are modelled
by their ordinal: the `datetime.fromisoformat(...).date()` step is an
abstract parameter `dateOf : String → ℤ` mapping a serialized timestamp to
the ordinal of its UTC calendar date (Python `date` objects are totally
ordered and `pd.date_range(..., freq="D")` steps through consecutive
ordinals).  Chart rendering (matplotlib) is out of scope; each function is
modelled by the data series it derives, `none` standing both for the
early-return on an empty history and for a NaN cell. -/

/-- The records of one calendar day: the group built by the
`daily_data` dict of `create_calendar_heatmap` for the date `d`. -/
def recordsOnDay (dateOf : String → ℤ) (results : List MonitoringResult)
    (d : ℤ) : List MonitoringResult :=
  results.filter (fun r => dateOf r.timestamp == d)

/-- Count the records whose basic health check (the primary probe,
`pds_status`) reported `online`. -/
def onlineCount (results : List MonitoringResult) : ℕ :=
  (results.filter (fun r => r.pds_status.status == "online")).length

/-- The value of one calendar cell after the reindex of
`create_calendar_heatmap` (analyze_results.py lines 155-177): the uptime
percentage of the day `online / total * 100`, or `none` (the NaN fill) when no
record falls on that day. -/
def dailyUptime (dateOf : String → ℤ) (results : List MonitoringResult)
    (d : ℤ) : Option ℚ :=
  let rs := recordsOnDay dateOf results d
  if rs.isEmpty then none
  else some ((onlineCount rs : ℚ) / (rs.length : ℚ) * 100)

/-- `min(dates)` over the grouped dates (equivalently over all records). -/
def minDate (dateOf : String → ℤ) : List MonitoringResult → ℤ
  | [] => 0
  | r :: rs => (rs.map (fun x => dateOf x.timestamp)).foldl min (dateOf r.timestamp)

/-- `max(dates)` over the grouped dates (equivalently over all records). -/
def maxDate (dateOf : String → ℤ) : List MonitoringResult → ℤ
  | [] => 0
  | r :: rs => (rs.map (fun x => dateOf x.timestamp)).foldl max (dateOf r.timestamp)

/-- `pd.date_range(start_date, end_date, freq="D")`: every day ordinal from
`mn` to `mx` inclusive. -/
def spanDays (mn mx : ℤ) : List ℤ :=
  (List.range (mx - mn + 1).toNat).map (fun i => mn + (i : ℤ))

/-- The daily uptime series of `create_calendar_heatmap`
(analyze_results.py lines 135-177): `none` on an empty history (the
function returns after printing "No results to analyze"); otherwise group
the records by calendar date, compute the uptime percentage of each day, and
reindex over the full min-to-max date range, missing days becoming the NaN
sentinel (`none`). -/
def create_calendar_heatmap (dateOf : String → ℤ)
    (results : List MonitoringResult) : Option (List (ℤ × Option ℚ)) :=
  if results.isEmpty then none
  else some ((spanDays (minDate dateOf results) (maxDate dateOf results)).map
    (fun d => (d, dailyUptime dateOf results d)))

/-- The keys of a Python dict filled in iteration order: the distinct
elements in order of first occurrence. -/
def collectNames (seen : List String) : List String → List String
  | [] => []
  | x :: xs =>
      if x ∈ seen then collectNames seen xs
      else x :: collectNames (x :: seen) xs

/-- All per-probe requests of the whole history, in order. -/
def allRequests (results : List MonitoringResult) : List RequestResult :=
  results.flatMap (fun r => r.atproto_requests)

/-- The per-endpoint success-rate series of `create_endpoint_analysis`
(analyze_results.py lines 202-229): `none` on an empty history; otherwise
for each endpoint name ever observed (dict insertion order), the
percentage of its requests with status `success`. -/
def create_endpoint_analysis (results : List MonitoringResult) :
    Option (List (String × ℚ)) :=
  if results.isEmpty then none
  else some ((collectNames [] ((allRequests results).map (fun r => r.endpoint))).map
    (fun n =>
      let reqs := (allRequests results).filter (fun r => r.endpoint == n)
      let succ := (reqs.filter (fun r => r.status == "success")).length
      (n, if reqs.length > 0 then (succ : ℚ) / (reqs.length : ℚ) * 100 else 0)))

/-- Truthiness of `r["pds_status"].get("response_time")`: `None` and `0.0`
are falsy, every other float is truthy. -/
def rtTruthy (r : MonitoringResult) : Bool :=
  match r.pds_status.response_time with
  | none => false
  | some t => t != 0

/-- The aggregate values written by `generate_summary_report`
(analyze_results.py lines 254-302).  `avg_response_time` is `none` when the
report omits the average-response-time line. -/
structure SummaryReport where
  total_checks : ℕ
  online_checks : ℕ
  uptime_percentage : ℚ
  avg_response_time : Option ℚ
  total_requests : ℕ
  successful_requests : ℕ
  overall_success_rate : ℚ

/-- `generate_summary_report` (analyze_results.py lines 254-302): `none` on
an empty history (early return); otherwise the overall statistics.  The
response-time list keeps `r["pds_status"].get("response_time", 0)` for
exactly the records where that value is truthy (so `None` and `0.0` are
both dropped). -/
def generate_summary_report (results : List MonitoringResult) :
    Option SummaryReport :=
  if results.isEmpty then none
  else
    let total_checks := results.length
    let online_checks := onlineCount results
    let response_times :=
      (results.filter rtTruthy).map
        (fun r => r.pds_status.response_time.getD 0)
    let total_requests := (results.map (fun r => r.summary.total_requests)).sum
    let successful_requests :=
      (results.map (fun r => r.summary.successful_requests)).sum
    some
      { total_checks := total_checks
        online_checks := online_checks
        uptime_percentage :=
          if total_checks > 0 then
            (online_checks : ℚ) / (total_checks : ℚ) * 100
          else 0
        avg_response_time :=
          if response_times.isEmpty then none
          else some (response_times.sum / (response_times.length : ℚ))
        total_requests := total_requests
        successful_requests := successful_requests
        overall_success_rate :=
          if total_requests > 0 then
            (successful_requests : ℚ) / (total_requests : ℚ) * 100
          else 0 }

/-- Modelled from the spec (for comparison with the code): the average
primary-probe response time as the claim states it — the mean of
`response_time` over exactly the records whose value is non-null, with the
"no data" sentinel when no non-null value exists. -/
def specAvgResponseTime (results : List MonitoringResult) : Option ℚ :=
  let ts := results.filterMap (fun r => r.pds_status.response_time)
  if ts.isEmpty then none else some (ts.sum / (ts.length : ℚ))

/-- The average the code actually computes (amended claim): the mean of the
truthy response times — non-null and nonzero; `none` when no such value
exists. -/
def avgTruthyResponseTime (results : List MonitoringResult) : Option ℚ :=
  let ts := results.filterMap (fun r =>
    r.pds_status.response_time.bind (fun t => if t = 0 then none else some t))
  if ts.isEmpty then none else some (ts.sum / (ts.length : ℚ))

/-!
## Claim theorems
-/

/-- Helper: every probe result carries the name of its endpoint. -/
lemma probeOne_endpoint (o : Outcome) (now : String) (ep : Endpoint) :
    (probeOne o now ep).endpoint = ep.name := by
  cases o with
  | response code elapsed body text =>
      simp only [probeOne]
      split_ifs <;> rfl
  | raised msg => rfl

/-- A concrete catalog entry, used in concrete instantiations. -/
def ep0 : Endpoint :=
  { name := "get_profile",
    url := "https://jglypt.net/xrpc/app.bsky.actor.getProfile",
    params := [("actor", .str "@j4ck.xyz")] }

/-- Claim C1: for every RunRecord produced by one monitoring run (a run
whose health check did not raise, hence `Except.ok`), the summary
satisfies `total_requests = len(results)`,
`successful_requests = count(status == "success")`, and
`success_rate = round(successful/total*100, 2)` when the results sequence
is nonempty and `0` when it is empty. -/
theorem C1_run_summary (ho : Outcome) (transport : Endpoint → Outcome)
    (now pds_url user_handle : String) (m : MonitoringResult)
    (h : run_monitoring ho transport now pds_url user_handle = .ok m) :
    m.summary.total_requests = m.atproto_requests.length ∧
    m.summary.successful_requests =
      (m.atproto_requests.filter (fun r => r.status == "success")).length ∧
    (m.atproto_requests ≠ [] →
      m.summary.success_rate =
        roundTo 2 ((m.summary.successful_requests : ℚ) /
          (m.summary.total_requests : ℚ) * 100)) ∧
    (m.atproto_requests = [] → m.summary.success_rate = 0) := by
  cases hc : check_pds_status ho now pds_url with
  | error e => simp [run_monitoring, hc] at h
  | ok status_result =>
      simp only [run_monitoring, hc] at h
      have hm := Except.ok.inj h
      subst hm
      refine ⟨rfl, rfl, fun _ => rfl, fun hempty => ?_⟩
      simp [perform_atproto_requests, runProbes, endpoints] at hempty

/-- Witness for C1 at a concrete transport: a run where every probe
succeeds and the health check reports offline. -/
theorem C1_run_summary_witness :
    ∃ m, run_monitoring (.raised "down")
        (fun _ => .response 200 1 none "") "2024-01-01T00:00:00"
        "https://jglypt.net" "@j4ck.xyz" = .ok m ∧
      (m.summary.total_requests = m.atproto_requests.length ∧
       m.summary.successful_requests =
         (m.atproto_requests.filter (fun r => r.status == "success")).length ∧
       (m.atproto_requests ≠ [] →
         m.summary.success_rate =
           roundTo 2 ((m.summary.successful_requests : ℚ) /
             (m.summary.total_requests : ℚ) * 100)) ∧
       (m.atproto_requests = [] → m.summary.success_rate = 0)) :=
  ⟨_, rfl, C1_run_summary (.raised "down") (fun _ => .response 200 1 none "")
    "2024-01-01T00:00:00" "https://jglypt.net" "@j4ck.xyz" _ rfl⟩

/-- Claim C2, counterexample to the claim as stated: for a transport
response with code 500 the recorded error message is `HTTP 500`, which is
not the stringified code `500`. -/
theorem C2_counterexample :
    (probeOne (.response 500 1 none "") "2024-01-01T00:00:00" ep0).error =
      some ("HTTP " ++ toString (500 : ℕ)) ∧
    "HTTP " ++ toString (500 : ℕ) ≠ toString (500 : ℕ) := by
  exact ⟨rfl, by decide⟩

/-- Claim C2 (amended): the probe runner classifies a transport outcome
exactly as 200 ↦ `success`, 401 ↦ `unauthorized`, 404 ↦ `not_found`, any
other response code ↦ `error` with error message `"HTTP "` followed by the
stringified code (and no error message on 200/401/404), and a raised
transport exception ↦ `failed` with the exception text as the message. -/
theorem C2_probe_classification (now : String) (ep : Endpoint) (code : ℕ)
    (elapsed : ℚ) (body : Option Json) (text msg : String) :
    ((probeOne (.response code elapsed body text) now ep).status =
        if code = 200 then "success"
        else if code = 401 then "unauthorized"
        else if code = 404 then "not_found"
        else "error") ∧
    ((probeOne (.response code elapsed body text) now ep).error =
        if code = 200 ∨ code = 401 ∨ code = 404 then none
        else some ("HTTP " ++ toString code)) ∧
    ((probeOne (.response code elapsed body text) now ep).response_code =
        some code) ∧
    (probeOne (.raised msg) now ep).status = "failed" ∧
    (probeOne (.raised msg) now ep).error = some msg := by
  refine ⟨?_, ?_, ?_, rfl, rfl⟩
  · simp only [probeOne]
    split_ifs <;> rfl
  · simp only [probeOne]
    split_ifs <;> simp_all
  · simp only [probeOne]
    split_ifs <;> rfl

/-- Claim C3: for every catalog and every pattern of per-probe outcomes
(the transport may return any code or raise on any subset of probes), the
probe loop returns exactly one result per probe, in catalog order; the
loop body is total, so no exception escapes the batch and the failure of one probe
 never prevents the remaining probes from running. -/
theorem C3_batch_shape (transport : Endpoint → Outcome) (now : String)
    (eps : List Endpoint) :
    (runProbes transport now eps).length = eps.length ∧
    (runProbes transport now eps).map (fun r => r.endpoint) =
      eps.map (fun e => e.name) := by
  constructor
  · simp [runProbes]
  · simp only [runProbes, List.map_map]
    exact List.map_congr_left (fun ep _ => probeOne_endpoint (transport ep) now ep)

/-- Claim C4, counterexample to the claim as stated: when the transport
raises, the outcome of the probe is a failure but `response_time` is left
`None` (the code only assigns `response_time` after a successful
transport call). -/
theorem C4_counterexample :
    (probeOne (.raised "Connection timed out") "2024-01-01T00:00:00"
        ep0).status = "failed" ∧
    (probeOne (.raised "Connection timed out") "2024-01-01T00:00:00"
        ep0).response_time = none :=
  ⟨rfl, rfl⟩

/-- Claim C4 (amended): in every probe result the status is never left as
`unknown`, and `response_time` is populated exactly when the transport
returned a response — on a raised transport exception it remains null. -/
theorem C4_result_population (o : Outcome) (now : String) (ep : Endpoint) :
    (probeOne o now ep).status ≠ "unknown" ∧
    ((probeOne o now ep).response_time = none ↔ ∃ msg, o = .raised msg) := by
  cases o with
  | response code elapsed body text =>
      constructor
      · simp only [probeOne]
        split_ifs <;> simp
      · simp only [probeOne]
        split_ifs <;> simp
  | raised msg =>
      exact ⟨by simp [probeOne], by simp [probeOne]⟩

/-- Claim C10, counterexample to the claim as stated, on both counts.
First, the health check does NOT return a record for every transport
outcome: on a 200 response whose body decodes to a JSON array,
`server_info.get` raises an uncaught `AttributeError` and no record is
produced.  Second, the health-status vocabulary is not disjoint from the
per-probe taxonomy: a 500 response produces status `error` in both. -/
theorem C10_counterexample :
    check_pds_status (.response 200 1 (some (.arr [.num 1, .num 2])) "")
        "2024-01-01T00:00:00" "https://jglypt.net" =
      .error attributeErrorMsg ∧
    (check_pds_status (.response 500 1 none "") "2024-01-01T00:00:00"
        "https://jglypt.net").map (fun r => r.status) = .ok "error" ∧
    (probeOne (.response 500 1 none "") "2024-01-01T00:00:00" ep0).status =
      "error" :=
  ⟨rfl, rfl, rfl⟩

/-- Claim C10 (amended): the basic health check returns a record on every
transport outcome EXCEPT a 200 response whose body decodes to a JSON
value that is not an object — there it raises an uncaught
`AttributeError` and returns nothing.  Every record it does return has a
status in {`online`, `error`, `offline`}, never the initial `unknown`:
`online` exactly on code 200 (object or undecodable body), `error` with
message `HTTP <code>` on any other code whatever the body, `offline` with
the exception text when the request raises.  The vocabulary overlaps the
per-probe taxonomy in exactly the shared value `error` (see the
counterexample), so the claimed disjointness is weakened to that. -/
theorem C10_health_classification (now pds_url : String) (code : ℕ)
    (elapsed : ℚ) (body : Option Json) (text msg : String) :
    (code ≠ 200 →
      (check_pds_status (.response code elapsed body text) now pds_url).map
          (fun r => (r.status, r.error)) =
        .ok ("error", some ("HTTP " ++ toString code))) ∧
    ((check_pds_status (.response 200 elapsed none text) now pds_url).map
        (fun r => r.status) = .ok "online") ∧
    (∀ kvs : List (String × Json),
      (check_pds_status (.response 200 elapsed (some (.obj kvs)) text)
          now pds_url).map (fun r => r.status) = .ok "online") ∧
    (∀ j : Json, j.isObj = false →
      check_pds_status (.response 200 elapsed (some j) text) now pds_url =
        .error attributeErrorMsg) ∧
    ((check_pds_status (.raised msg) now pds_url).map
        (fun r => (r.status, r.error)) = .ok ("offline", some msg)) ∧
    (∀ o : Outcome, ∀ r : StatusResult,
      check_pds_status o now pds_url = .ok r → r.status ≠ "unknown") := by
  refine ⟨?_, rfl, fun kvs => rfl, ?_, rfl, ?_⟩
  · intro hc
    simp only [check_pds_status]
    rw [if_neg hc]
    rfl
  · intro j hj
    cases j with
    | obj kvs => simp [Json.isObj] at hj
    | null => rfl
    | bool b => rfl
    | num q => rfl
    | str s => rfl
    | arr elems => rfl
  · intro o r h
    cases o with
    | response code elapsed body text =>
        simp only [check_pds_status] at h
        split_ifs at h with h200
        · cases body with
          | none =>
              have := Except.ok.inj h
              subst this
              simp
          | some j =>
              cases j with
              | obj kvs =>
                  have := Except.ok.inj h
                  subst this
                  simp
              | null => exact absurd h (by simp)
              | bool b => exact absurd h (by simp)
              | num q => exact absurd h (by simp)
              | str s => exact absurd h (by simp)
              | arr elems => exact absurd h (by simp)
        · have := Except.ok.inj h
          subst this
          simp
    | raised m =>
        simp only [check_pds_status] at h
        have := Except.ok.inj h
        subst this
        simp

/-- A concrete RunRecord for instantiations: a record whose probe batch is
not inspected by the history-level aggregates under test. -/
def healthRecord (ts st : String) (rt : Option ℚ) : MonitoringResult :=
  { timestamp := ts, pds_url := "https://jglypt.net", user_handle := "@j4ck.xyz",
    pds_status := { timestamp := ts, pds_url := "https://jglypt.net",
                    status := st, response_time := rt, error := none,
                    details := .obj [] },
    atproto_requests := [],
    summary := { total_requests := 0, successful_requests := 0,
                 success_rate := 0, pds_online := st == "online" } }

/-- Claim C6: on an empty history every aggregate is the "no data"
sentinel (the analysis functions return without computing, so no division
by zero can be raised — the embedded functions are total), while a
one-record history whose primary health probe did not report `online`
yields overall uptime 0, not "no data". -/
theorem C6_empty_and_singleton (dateOf : String → ℤ) :
    generate_summary_report [] = none ∧
    create_calendar_heatmap dateOf [] = none ∧
    create_endpoint_analysis [] = none ∧
    (∀ r : MonitoringResult, r.pds_status.status ≠ "online" →
      (generate_summary_report [r]).map (fun rep => rep.uptime_percentage) =
        some 0) := by
  refine ⟨rfl, rfl, rfl, ?_⟩
  intro r h
  have hb : (r.pds_status.status == "online") = false := by
    simpa using h
  simp [generate_summary_report, onlineCount, hb]

/-- Witness for C6 at a concrete input: one record whose health check
reported `offline`. -/
theorem C6_witness :
    (generate_summary_report [healthRecord "t" "offline" none]).map
      (fun rep => rep.uptime_percentage) = some 0 :=
  (C6_empty_and_singleton (fun _ => 0)).2.2.2 (healthRecord "t" "offline" none)
    (by decide)

/-- Claim C7, counterexample to the claim as stated: with response times
`0.0` and `2.0` the claimed mean over non-null values is `1.0`, but the
code filters on truthiness, drops the `0.0`, and reports `2.0`. -/
theorem C7_counterexample :
    (generate_summary_report
        [healthRecord "t1" "online" (some 0),
         healthRecord "t2" "online" (some 2)]).map
      (fun rep => rep.avg_response_time) = some (some 2) ∧
    specAvgResponseTime
        [healthRecord "t1" "online" (some 0),
         healthRecord "t2" "online" (some 2)] = some 1 ∧
    some (2 : ℚ) ≠ some (1 : ℚ) := by
  refine ⟨?_, ?_, by norm_num⟩
  · simp [generate_summary_report, rtTruthy, healthRecord]
  · simp [specAvgResponseTime, healthRecord]

/-- Helper: the response-time list the report builds (the truthiness
filter) equals the list of non-null, nonzero response times. -/
lemma truthy_times_eq (results : List MonitoringResult) :
    (results.filter rtTruthy).map
      (fun r => r.pds_status.response_time.getD 0) =
    results.filterMap (fun r =>
      r.pds_status.response_time.bind
        (fun t => if t = 0 then none else some t)) := by
  induction results with
  | nil => rfl
  | cons r rs ih =>
      cases h : r.pds_status.response_time with
      | none => simp [List.filter_cons, rtTruthy, h, ih]
      | some t =>
          by_cases ht : t = 0
          · simp [List.filter_cons, rtTruthy, h, ht, ih]
          · simp [List.filter_cons, rtTruthy, h, ht, ih]

/-- Claim C7 (amended): the reported average response time is the mean of
`response_time` over exactly the records whose value is non-null AND
nonzero (the truthiness filter of the code also drops `0.0`); records with a
null or zero value count in neither numerator nor denominator, and the
value is the "no data" sentinel when no such value exists. -/
theorem C7_avg_response (results : List MonitoringResult)
    (h : results ≠ []) :
    (generate_summary_report results).map (fun rep => rep.avg_response_time) =
      some (avgTruthyResponseTime results) := by
  have hne : results.isEmpty = false := by
    cases results with
    | nil => exact absurd rfl h
    | cons a l => rfl
  simp only [generate_summary_report, hne, Bool.false_eq_true, if_false]
  rw [avgTruthyResponseTime, ← truthy_times_eq results]
  rfl

/-- Witness for C7 at a concrete input. -/
theorem C7_avg_response_witness :
    (generate_summary_report [healthRecord "t1" "online" (some 2)]).map
      (fun rep => rep.avg_response_time) =
      some (avgTruthyResponseTime [healthRecord "t1" "online" (some 2)]) :=
  C7_avg_response [healthRecord "t1" "online" (some 2)]
    (List.cons_ne_nil _ _)

/-- Helper: a left fold with `min` is below its initial value. -/
lemma foldl_min_le_init (l : List ℤ) (a : ℤ) : l.foldl min a ≤ a := by
  induction l generalizing a with
  | nil => simp
  | cons x xs ih =>
      exact le_trans (ih (min a x)) (min_le_left a x)

/-- Helper: a left fold with `min` is below every element. -/
lemma foldl_min_le_mem {l : List ℤ} {x : ℤ} (hx : x ∈ l) (a : ℤ) :
    l.foldl min a ≤ x := by
  induction l generalizing a with
  | nil => cases hx
  | cons y ys ih =>
      rcases List.mem_cons.mp hx with rfl | hmem
      · exact le_trans (foldl_min_le_init ys (min a x)) (min_le_right a x)
      · exact ih hmem (min a y)

/-- Helper: a left fold with `max` is above its initial value. -/
lemma le_foldl_max_init (l : List ℤ) (a : ℤ) : a ≤ l.foldl max a := by
  induction l generalizing a with
  | nil => simp
  | cons x xs ih =>
      exact le_trans (le_max_left a x) (ih (max a x))

/-- Helper: a left fold with `max` is above every element. -/
lemma le_foldl_max_mem {l : List ℤ} {x : ℤ} (hx : x ∈ l) (a : ℤ) :
    x ≤ l.foldl max a := by
  induction l generalizing a with
  | nil => cases hx
  | cons y ys ih =>
      rcases List.mem_cons.mp hx with rfl | hmem
      · exact le_trans (le_max_right a x) (le_foldl_max_init ys (max a x))
      · exact ih hmem (max a y)

/-- Helper: `minDate` bounds the date of every record from below. -/
lemma minDate_le {dateOf : String → ℤ} {results : List MonitoringResult}
    {r : MonitoringResult} (hr : r ∈ results) :
    minDate dateOf results ≤ dateOf r.timestamp := by
  cases results with
  | nil => cases hr
  | cons a rs =>
      rcases List.mem_cons.mp hr with rfl | hmem
      · exact foldl_min_le_init _ _
      · exact foldl_min_le_mem (List.mem_map_of_mem _ hmem) _

/-- Helper: `maxDate` bounds the date of every record from above. -/
lemma le_maxDate {dateOf : String → ℤ} {results : List MonitoringResult}
    {r : MonitoringResult} (hr : r ∈ results) :
    dateOf r.timestamp ≤ maxDate dateOf results := by
  cases results with
  | nil => cases hr
  | cons a rs =>
      rcases List.mem_cons.mp hr with rfl | hmem
      · exact le_foldl_max_init _ _
      · exact le_foldl_max_mem (List.mem_map_of_mem _ hmem) _

/-- Claim C5: on a nonempty history the daily series groups records by the
calendar date of their timestamp, spans every date from the minimum to the
maximum observed date inclusive (every observed date lies in that span),
carries `online/total*100` (primary-probe rule) on each date having at
least one record, and carries the explicit "no data" sentinel — distinct
from a 0.0 value — on each date of the span with no records. -/
theorem C5_daily_series (dateOf : String → ℤ)
    (results : List MonitoringResult) (h : results ≠ []) :
    ∃ L, create_calendar_heatmap dateOf results = some L ∧
      L.map Prod.fst =
        spanDays (minDate dateOf results) (maxDate dateOf results) ∧
      (∀ r ∈ results, minDate dateOf results ≤ dateOf r.timestamp ∧
        dateOf r.timestamp ≤ maxDate dateOf results) ∧
      (∀ p ∈ L,
        (recordsOnDay dateOf results p.1 = [] → p.2 = none) ∧
        (recordsOnDay dateOf results p.1 ≠ [] →
          p.2 = some
            ((onlineCount (recordsOnDay dateOf results p.1) : ℚ) /
              ((recordsOnDay dateOf results p.1).length : ℚ) * 100))) := by
  have hne : results.isEmpty = false := by
    cases results with
    | nil => exact absurd rfl h
    | cons a l => rfl
  refine ⟨(spanDays (minDate dateOf results) (maxDate dateOf results)).map
      (fun d => (d, dailyUptime dateOf results d)), ?_, ?_, ?_, ?_⟩
  · simp [create_calendar_heatmap, hne]
  · exact (List.map_map _ _ _).trans
      ((List.map_congr_left fun d _ => rfl).trans (List.map_id _))
  · exact fun r hr => ⟨minDate_le hr, le_maxDate hr⟩
  · intro p hp
    obtain ⟨d, hd, rfl⟩ := List.mem_map.mp hp
    constructor
    · intro hempty
      simp [dailyUptime, hempty]
    · intro hrec
      have : (recordsOnDay dateOf results d).isEmpty = false := by
        cases hrd : recordsOnDay dateOf results d with
        | nil => exact absurd hrd hrec
        | cons a l => rfl
      simp [dailyUptime, this]

/-- A concrete date assignment for instantiations: day 1 for the first
timestamp, day 3 for everything else. -/
def dateOfW : String → ℤ := fun s => if s = "d1" then 1 else 3

/-- A concrete two-record history with runs on day 1 and day 3 only. -/
def resultsW : List MonitoringResult :=
  [healthRecord "d1" "online" none, healthRecord "d3" "offline" none]

/-- Witness for C5 at a concrete input: runs on day 1 and day 3 only; the
series covers day 2 with the sentinel. -/
theorem C5_daily_series_witness :
    ∃ L, create_calendar_heatmap dateOfW resultsW = some L ∧
      L.map Prod.fst = spanDays (minDate dateOfW resultsW) (maxDate dateOfW resultsW) ∧
      (∀ r ∈ resultsW, minDate dateOfW resultsW ≤ dateOfW r.timestamp ∧
        dateOfW r.timestamp ≤ maxDate dateOfW resultsW) ∧
      (∀ p ∈ L,
        (recordsOnDay dateOfW resultsW p.1 = [] → p.2 = none) ∧
        (recordsOnDay dateOfW resultsW p.1 ≠ [] →
          p.2 = some
            ((onlineCount (recordsOnDay dateOfW resultsW p.1) : ℚ) /
              ((recordsOnDay dateOfW resultsW p.1).length : ℚ) * 100))) :=
  C5_daily_series dateOfW resultsW (List.cons_ne_nil _ _)

/-- Helper: membership in a sorted insertion. -/
lemma mem_insertByName {e f : String × FileContent}
    {l : List (String × FileContent)} :
    f ∈ insertByName e l ↔ f = e ∨ f ∈ l := by
  induction l with
  | nil => simp [insertByName]
  | cons g gs ih =>
      simp only [insertByName]
      split_ifs
      · simp [List.mem_cons]
      · simp only [List.mem_cons, ih]
        tauto

/-- Helper: membership is preserved by sorting. -/
lemma mem_sortByName {f : String × FileContent}
    {l : List (String × FileContent)} :
    f ∈ sortByName l ↔ f ∈ l := by
  induction l with
  | nil => simp [sortByName]
  | cons e es ih =>
      simp only [sortByName, mem_insertByName, ih, List.mem_cons]

/-- Helper: insertion grows the length by one. -/
lemma length_insertByName (e : String × FileContent)
    (l : List (String × FileContent)) :
    (insertByName e l).length = l.length + 1 := by
  induction l with
  | nil => rfl
  | cons g gs ih =>
      simp only [insertByName]
      split_ifs
      · simp
      · simp [ih]

/-- Helper: sorting preserves the length. -/
lemma length_sortByName (l : List (String × FileContent)) :
    (sortByName l).length = l.length := by
  induction l with
  | nil => rfl
  | cons e es ih => simp [sortByName, length_insertByName, ih]

/-- Helper: a list mapped through an everywhere-defined partial function
keeps its length. -/
lemma length_filterMap_all_some {α β : Type} (f : α → Option β)
    (l : List α) (h : ∀ a ∈ l, (f a).isSome) :
    (l.filterMap f).length = l.length := by
  induction l with
  | nil => rfl
  | cons a as ih =>
      cases hfa : f a with
      | none =>
          exact absurd (h a (List.mem_cons_self a as))
            (by simp [hfa])
      | some b =>
          simp only [List.filterMap_cons, hfa, List.length_cons]
          rw [ih (fun x hx => h x (List.mem_cons_of_mem a hx))]

/-- Claim C9: if every file of the store is present but unparsable,
`load_results` returns the empty sequence and prints one error line per
file; the per-file parse failure is caught, so nothing ever propagates to
the caller (the embedded function is total). -/
theorem C9_corrupt_load (store : FileStore)
    (h : ∀ e ∈ store, e.2.isCorrupt = true) :
    (load_results store).1 = [] ∧
    (load_results store).2.length = store.length := by
  have hparse : ∀ e ∈ sortByName store, parseFile e.2 = none := by
    intro e he
    obtain ⟨nm, c⟩ := e
    have := h (nm, c) (mem_sortByName.mp he)
    cases c with
    | json j => simp [FileContent.isCorrupt] at this
    | corrupt raw => rfl
  constructor
  · simp only [load_results]
    rw [List.filterMap_eq_nil_iff]
    intro e he
    exact hparse e he
  · simp only [load_results]
    rw [length_filterMap_all_some, length_sortByName]
    intro e he
    rw [hparse e he]
    rfl

/-- Witness for C9 at a concrete store holding one corrupt file. -/
theorem C9_corrupt_load_witness :
    (load_results [("results/pds_monitor_20240101_000000.json",
        .corrupt "not json")]).1 = [] ∧
    (load_results [("results/pds_monitor_20240101_000000.json",
        .corrupt "not json")]).2.length =
      ([("results/pds_monitor_20240101_000000.json",
        FileContent.corrupt "not json")] : FileStore).length :=
  C9_corrupt_load _ (by decide)

/-- Helper: inserting below an appended largest element commutes with the
append. -/
lemma insertByName_append_big (e n : String × FileContent)
    (l : List (String × FileContent)) (h : e.1 < n.1) :
    insertByName e (l ++ [n]) = insertByName e l ++ [n] := by
  induction l with
  | nil => simp [insertByName, h]
  | cons f fs ih =>
      simp only [List.cons_append, insertByName]
      split_ifs
      · rfl
      · simp [ih]

/-- Helper: sorting a list with a strictly largest element appended sorts
the rest and keeps that element last. -/
lemma sortByName_append_big (l : List (String × FileContent))
    (n : String × FileContent) (h : ∀ e ∈ l, e.1 < n.1) :
    sortByName (l ++ [n]) = sortByName l ++ [n] := by
  induction l with
  | nil => rfl
  | cons e es ih =>
      have hcons : (e :: es) ++ [n] = e :: (es ++ [n]) := rfl
      rw [hcons]
      show insertByName e (sortByName (es ++ [n])) = insertByName e (sortByName es) ++ [n]
      rw [ih (fun x hx => h x (List.mem_cons_of_mem e hx))]
      exact insertByName_append_big e n (sortByName es)
        (h e (List.mem_cons_self e es))

/-- Helper: writing to a path strictly greater than every existing path
appends a new file. -/
lemma writeFile_fresh (store : FileStore) (name : String) (c : FileContent)
    (h : ∀ e ∈ store, e.1 < name) :
    writeFile store name c = store ++ [(name, c)] := by
  have hany : store.any (fun e => e.1 == name) = false := by
    rw [List.any_eq_false]
    intro x hx
    simp only [beq_iff_eq]
    exact ne_of_lt (h x hx)
  simp [writeFile, hany]

/-- Helper: optional-number fields survive the JSON round trip. -/
lemma decOptNum_enc (x : Option ℚ) : decOptNum (encOptNum x) = some x := by
  cases x <;> rfl

/-- Helper: optional-string fields survive the JSON round trip. -/
lemma decOptStr_enc (x : Option String) :
    decOptStr (encOptStr x) = some x := by
  cases x <;> rfl

/-- Helper: optional-integer fields survive the JSON round trip. -/
lemma decOptNat_enc (x : Option ℕ) : decOptNat (encOptNat x) = some x := by
  cases x with
  | none => rfl
  | some n => simp [encOptNat, decOptNat]

/-- Helper: integer fields survive the JSON round trip. -/
lemma decNat_enc (n : ℕ) : decNat (.num n) = some n := by
  simp [decNat]

/-- Helper: the `pds_status` dict survives the JSON round trip. -/
lemma decStatusResult_enc (s : StatusResult) :
    decStatusResult (encStatusResult s) = some s := by
  cases s
  simp [encStatusResult, decStatusResult, decOptNum_enc, decOptStr_enc]

/-- Helper: a per-probe result dict survives the JSON round trip. -/
lemma decRequestResult_enc (r : RequestResult) :
    decRequestResult (encRequestResult r) = some r := by
  cases r
  simp [encRequestResult, decRequestResult, decOptNum_enc, decOptStr_enc,
    decOptNat_enc]

/-- Helper: the `summary` dict survives the JSON round trip. -/
lemma decSummary_enc (s : Summary) : decSummary (encSummary s) = some s := by
  cases s
  simp [encSummary, decSummary, decNat_enc]

/-- Helper: an encoded list decodes element-wise. -/
lemma decodeList_enc {α : Type} (f : Json → Option α) (g : α → Json)
    (hfg : ∀ x, f (g x) = some x) (l : List α) :
    decodeList f (l.map g) = some l := by
  induction l with
  | nil => rfl
  | cons x xs ih => simp [decodeList, hfg, ih]

/-- Helper: a complete RunRecord survives the JSON round trip
field-for-field. -/
lemma decodeMonitoring_enc (m : MonitoringResult) :
    decodeMonitoring (encodeMonitoring m) = some m := by
  cases m
  simp [encodeMonitoring, decodeMonitoring, decStatusResult_enc,
    decSummary_enc, decodeList_enc decRequestResult encRequestResult
      decRequestResult_enc]

/-- Claim C8, counterexample to the claim as stated: appending a run whose
timestamp collides with an already-persisted file overwrites that file
(same path), so the loaded sequence is NOT the previous sequence extended
by the new record — the prior record is lost. -/
theorem C8_counterexample :
    ¬ ((load_results (save_results
          [("results/pds_monitor_20240101_000000.json", .json (.obj []))]
          "20240101_000000" (healthRecord "t" "online" none))).1 =
        (load_results
          [("results/pds_monitor_20240101_000000.json", .json (.obj []))]).1 ++
        [encodeMonitoring (healthRecord "t" "online" none)]) := by
  intro h
  have h1 : (load_results (save_results
      [("results/pds_monitor_20240101_000000.json", .json (.obj []))]
      "20240101_000000" (healthRecord "t" "online" none))).1.length = 1 := rfl
  have h2 : ((load_results
      [("results/pds_monitor_20240101_000000.json", .json (.obj []))]).1 ++
      [encodeMonitoring (healthRecord "t" "online" none)]).length = 2 := rfl
  rw [h, h2] at h1
  exact absurd h1 (by decide)

/-- Claim C8 (amended): provided the file path of the new run sorts strictly
after every path already in the store (monotone run timestamps, at most
one run per second), `save_results` followed by `load_results` yields
exactly the previously loaded sequence extended by the JSON document of the new
record, and that document decodes back to the record field-for-field. -/
theorem C8_roundtrip (store : FileStore) (ts : String) (r : MonitoringResult)
    (h : ∀ e ∈ store, e.1 < resultsFilename ts) :
    (load_results (save_results store ts r)).1 =
      (load_results store).1 ++ [encodeMonitoring r] ∧
    decodeMonitoring (encodeMonitoring r) = some r := by
  constructor
  · show (load_results (writeFile store (resultsFilename ts)
        (.json (encodeMonitoring r)))).1 = _
    rw [writeFile_fresh store _ _ h]
    simp only [load_results]
    rw [sortByName_append_big store _ h]
    simp [parseFile]
  · exact decodeMonitoring_enc r

/-- Witness for C8 at a concrete store: one existing file from an earlier
timestamp, a new run one day later. -/
theorem C8_roundtrip_witness :
    (load_results (save_results
        [("results/pds_monitor_20240101_000000.json", .json (.obj []))]
        "20240102_000000" (healthRecord "t" "online" none))).1 =
      (load_results
        [("results/pds_monitor_20240101_000000.json", .json (.obj []))]).1 ++
      [encodeMonitoring (healthRecord "t" "online" none)] ∧
    decodeMonitoring (encodeMonitoring (healthRecord "t" "online" none)) =
      some (healthRecord "t" "online" none) :=
  C8_roundtrip
    [("results/pds_monitor_20240101_000000.json", .json (.obj []))]
    "20240102_000000" (healthRecord "t" "online" none)
    (by
      intro e he
      rw [List.mem_singleton] at he
      subst he
      rw [String.lt_iff_toList_lt]
      decide)
